import Mathlib

/-!
Verification development for the StreamWatch spreadsheet-import scripts.

This file gives a shallow embedding of the column-classification,
row-normalization and quality-flag logic shared by the import scripts
(`scripts/import_bact_hab_data.py`, `scripts/robust_data_import.py`,
`scripts/etl/streamwatch_etl.py`, `scripts/data_cleaner.py`,
`load_remaining_tables.py`) and proves properties of it.

Modelling conventions:
 - a spreadsheet cell is `Cell`: missing (`na`, pandas NaN/None), a text
   cell (`str`), or a numeric cell (`num`, an exact rational in place of
   the Python float — every number the scripts handle is a short decimal,
   so exact rational arithmetic is a faithful model of the float
   arithmetic they do);
 - rational arithmetic is spelled with the kernel-evaluable helpers
   `ratAdd`, `ratSub`, `ratMul` (proved equal to `+`, `-`, `*` on `ℚ`
   below) so that concrete runs of the embedded code can be checked by
   `decide`;
 - `str(x)` on a numeric cell is rendered with `toString` on the rational;
   no proof below depends on the exact text of a numeric cell;
 - Python `float(x)` is `pyFloat`, a decimal parser returning `Option`;
   exponent and special forms ("inf") are not modelled, and no theorem
   depends on their absence;
 - database insertion is modelled by a boolean oracle (`ok`): an insert
   whose oracle answer is `false` stands for a raised-and-caught
   exception.
-/

/-- Value of one spreadsheet cell as pandas hands it to the scripts. -/
inductive Cell where
  | na : Cell
  | str : String → Cell
  | num : ℚ → Cell
deriving DecidableEq

/-- Embeds `pd.isna(value)`. -/
def cellIsNa : Cell → Bool
  | .na => true
  | _ => false

/-- Numeric payload of a cell, when it is numeric. -/
def cellNum? : Cell → Option ℚ
  | .num q => some q
  | _ => none

/-- Tests whether a cell holds text. -/
def cellIsStr : Cell → Bool
  | .str _ => true
  | _ => false

/-- Cell of row `r` in column position `j`; out-of-range reads are `na`. -/
def cellGet (r : List Cell) (j : Nat) : Cell := r.getD j Cell.na

/-- Embeds Python `str(value)` on a cell. -/
def cellToString : Cell → String
  | .na => "nan"
  | .str s => s
  | .num q => toString q

/-- Embeds Python `s.strip()`: drop whitespace at both ends. -/
def pyStrip (s : String) : String :=
  String.mk (((s.data.dropWhile Char.isWhitespace).reverse.dropWhile Char.isWhitespace).reverse)

/-- Embeds Python `s.lower()`. -/
def pyLower (s : String) : String := String.mk (s.data.map Char.toLower)

/-- Embeds Python `s.upper()`. -/
def pyUpper (s : String) : String := String.mk (s.data.map Char.toUpper)

/-- Embeds Python `pat in s` (substring containment). -/
def strContains (s pat : String) : Bool :=
  (List.range (s.data.length + 1)).any (fun i => (s.data.drop i).take pat.data.length = pat.data)

/-! ### Kernel-evaluable rational arithmetic

Batteries marks `Rat.add`, `Rat.sub` and `Rat.mul` `@[irreducible]`, so a
`decide` over a concrete run of the embedded code would get stuck on them.
The helpers below compute the same values through the reducible smart
constructor `mkRat`; `ratAdd_eq`, `ratSub_eq` and `ratMul_eq` (in the
theorem section) identify them with the ordinary operations on `ℚ`. -/

/-- Addition on `ℚ` through `mkRat`. -/
def ratAdd (a b : ℚ) : ℚ := mkRat (a.num * b.den + b.num * a.den) (a.den * b.den)

/-- Subtraction on `ℚ` through `mkRat`. -/
def ratSub (a b : ℚ) : ℚ := mkRat (a.num * b.den - b.num * a.den) (a.den * b.den)

/-- Multiplication on `ℚ` through `mkRat`. -/
def ratMul (a b : ℚ) : ℚ := mkRat (a.num * b.num) (a.den * b.den)

/-- Numeric value of a digit string, most significant digit first. -/
def digitsNat (cs : List Char) : Nat :=
  cs.foldl (fun a c => a * 10 + (c.toNat - 48)) 0

/-- Embeds Python `float(s)` on a string: optional sign, then either
`digits`, `digits.digits`, `digits.` or `.digits`; anything else raises
(returns `none`). Exponent and special forms are not modelled. -/
def parseFloat (s : String) : Option ℚ :=
  let cs := (pyStrip s).data
  let sgn : Int := match cs with | '-' :: _ => -1 | _ => 1
  let body := match cs with | '-' :: r => r | '+' :: r => r | _ => cs
  let intPart := body.takeWhile Char.isDigit
  match body.dropWhile Char.isDigit with
  | [] => if intPart = [] then none else some (Rat.divInt (sgn * (digitsNat intPart : Int)) 1)
  | '.' :: fracRest =>
    let fracPart := fracRest.takeWhile Char.isDigit
    if fracRest.dropWhile Char.isDigit = [] ∧ ¬(intPart = [] ∧ fracPart = []) then
      some (Rat.divInt
        (sgn * ((digitsNat intPart * 10 ^ fracPart.length + digitsNat fracPart : Nat) : Int))
        ((10 : Int) ^ fracPart.length))
    else none
  | _ => none

/-- Embeds Python `float(cell)`: numbers pass through, strings are parsed,
`NaN` has no finite value (every call site guards it with `pd.notna`). -/
def pyFloat : Cell → Option ℚ
  | .na => none
  | .str s => parseFloat s
  | .num q => some q

/-! ### Column classifier of the row-import scripts

`import_bact_hab_data.import_bact_hab_data` assigns a role to each column
by an `if`/`elif` chain of case-insensitive substring tests on the header
(lines 112-128 for the bacterial branch, lines 178-194 for the algal
branch). -/

/-- Semantic role a column header receives in the bacterial branch. -/
inductive Role where
  | identifier : Role
  | date : Role
  | numeric : Role
  | method : Role
  | flag : Role
  | note : Role
  | unknown : Role
deriving DecidableEq

/-- Header matches the identifier keyword set (`'site'`, `'station'`,
`'location'`). -/
def bactIdentKw (h : String) : Bool :=
  strContains (pyLower h) "site" || strContains (pyLower h) "station" ||
    strContains (pyLower h) "location"

/-- Header matches the date keyword set of the row importers (`'date'`
only — `'time'` is not tested there). -/
def bactDateKw (h : String) : Bool := strContains (pyLower h) "date"

/-- Header matches the numeric-result keyword set of the bacterial branch
(`'coli'`, `'mpn'`, `'result'`). -/
def bactNumKw (h : String) : Bool :=
  strContains (pyLower h) "coli" || strContains (pyLower h) "mpn" ||
    strContains (pyLower h) "result"

/-- Header matches `'method'`. -/
def bactMethodKw (h : String) : Bool := strContains (pyLower h) "method"

/-- Header matches `'flag'` or `'quality'`. -/
def bactFlagKw (h : String) : Bool :=
  strContains (pyLower h) "flag" || strContains (pyLower h) "quality"

/-- Header matches the free-text keyword set (`'note'`, `'comment'`). -/
def bactNoteKw (h : String) : Bool :=
  strContains (pyLower h) "note" || strContains (pyLower h) "comment"

/-- Role assignment of the bacterial branch: the `if`/`elif` chain of
`import_bact_hab_data.py` lines 112-128, first match wins. -/
def classifyBactCol (h : String) : Role :=
  if bactIdentKw h then .identifier
  else if bactDateKw h then .date
  else if bactNumKw h then .numeric
  else if bactMethodKw h then .method
  else if bactFlagKw h then .flag
  else if bactNoteKw h then .note
  else .unknown

/-- Date-column test of the sheet cleaner, `streamwatch_etl.py` line 118:
`'date' in col.lower() or 'time' in col.lower()`. -/
def etlDateCol (h : String) : Bool :=
  strContains (pyLower h) "date" || strContains (pyLower h) "time"

/-! ### Column-name standardization

`streamwatch_etl.clean_column_names` (lines 14-33); the same block is
inlined in `data_cleaner.clean_sheet_data` (lines 48-65, without the
`'&'`/`'+'` replacements). Every pattern of the `.replace` chain is a
single character and no replacement string contains a pattern character,
so the chain acts as one character-by-character substitution. -/

/-- Replacement applied to one character of a header by the `.replace`
chain of `clean_column_names`. -/
def cleanChar (c : Char) : String :=
  if c = ' ' then "_"
  else if c = '(' then ""
  else if c = ')' then ""
  else if c = '[' then ""
  else if c = ']' then ""
  else if c = '%' then "pct"
  else if c = '°' then "deg"
  else if c = 'µ' then "u"
  else if c = '/' then "_per_"
  else if c = '-' then "_"
  else if c = '&' then "and"
  else if c = '+' then "plus"
  else String.mk [c]

/-- Normalized form of one header: `str(col).strip()` followed by the
`.replace` chain. -/
def cleanName (col : String) : String :=
  String.join ((pyStrip col).data.map cleanChar)

/-- Embeds `clean_column_names`: normalize each header in order and, when
the result is already among the names built so far, append `"_2"` once. -/
def cleanColumnNames (cols : List String) : List String :=
  cols.foldl (fun acc col =>
    let c := cleanName col
    acc ++ [if acc.contains c then c ++ "_2" else c]) []

/-! ### Quality-flag annotator

Step 7 of `streamwatch_etl.clean_sheet_data` (lines 126-147): set every
row's `data_quality_flag` to `'clean'`, rewrite it to `'high_missing'`
when more than half of the row's fields (including the flag field just
added) are null, then for each numeric column with more than 10 non-null
values rewrite the flag of rows holding an IQR outlier to
`'potential_outlier'`. A sheet is a list of rows of cells; the flag
column is carried separately as a `List String`. -/

/-- Number of null fields in a row (`row.isna().sum()`). -/
def countNa (r : List Cell) : Nat := (r.filter cellIsNa).length

/-- Flag a single row gets from the missing-values pass, lines 127-134.
When the pass runs, the row already carries the `data_quality_flag`
column holding the non-null string `'clean'`, so that field counts in
`len(row)` but never in `row.isna().sum()`. -/
def missingPassFlag (r : List Cell) : String :=
  let full := r ++ [Cell.str "clean"]
  if mkRat (countNa full) full.length > mkRat 1 2 then "high_missing" else "clean"

/-- Cells of column `j`, top to bottom. -/
def colCells (rows : List (List Cell)) (j : Nat) : List Cell :=
  rows.map (fun r => cellGet r j)

/-- Embeds the dtype test `df[col].dtype in ['float64', 'int64']`: a pandas
column is numeric exactly when every cell is a number or NaN. -/
def colIsNumericQ (rows : List (List Cell)) (j : Nat) : Bool :=
  (colCells rows j).all (fun c => cellIsNa c || (cellNum? c).isSome)

/-- Embeds `df[col].dropna()`: the non-null values of column `j` in order. -/
def nonNullCol (rows : List (List Cell)) (j : Nat) : List ℚ :=
  (colCells rows j).filterMap cellNum?

/-- Insert a value into an ascending list, keeping it ascending. -/
def insertSorted (x : ℚ) : List ℚ → List ℚ
  | [] => [x]
  | y :: ys => if x ≤ y then x :: y :: ys else y :: insertSorted x ys

/-- Ascending sort, as the quantile computation needs it. -/
def sortQ (xs : List ℚ) : List ℚ := xs.foldr insertSorted []

/-- Embeds `Series.quantile(q)` with the default linear interpolation:
with `s` the sorted values and `h = q*(n-1)`, the result is
`s[floor h] + (h - floor h) * (s[ceil h] - s[floor h])`. -/
def quantileLin (xs : List ℚ) (q : ℚ) : ℚ :=
  let s := sortQ xs
  let h : ℚ := ratMul q ((s.length - 1 : Nat) : ℚ)
  let lo := h.num.toNat / h.den
  let hi := (h.num.toNat + h.den - 1) / h.den
  let a := s.getD lo 0
  let b := s.getD hi 0
  ratAdd a (ratMul (ratSub h ((lo : Nat) : ℚ)) (ratSub b a))

/-- First quartile of column `j` (`non_null_values.quantile(0.25)`). -/
def colQ1 (rows : List (List Cell)) (j : Nat) : ℚ :=
  quantileLin (nonNullCol rows j) (mkRat 1 4)

/-- Third quartile of column `j` (`non_null_values.quantile(0.75)`). -/
def colQ3 (rows : List (List Cell)) (j : Nat) : ℚ :=
  quantileLin (nonNullCol rows j) (mkRat 3 4)

/-- Interquartile range `IQR = Q3 - Q1` of column `j`. -/
def colIQR (rows : List (List Cell)) (j : Nat) : ℚ :=
  ratSub (colQ3 rows j) (colQ1 rows j)

/-- Lower outlier bound `Q1 - 1.5*IQR` of column `j`. -/
def colLoBound (rows : List (List Cell)) (j : Nat) : ℚ :=
  ratSub (colQ1 rows j) (ratMul (mkRat 3 2) (colIQR rows j))

/-- Upper outlier bound `Q3 + 1.5*IQR` of column `j`. -/
def colHiBound (rows : List (List Cell)) (j : Nat) : ℚ :=
  ratAdd (colQ3 rows j) (ratMul (mkRat 3 2) (colIQR rows j))

/-- Embeds the `outliers` series of lines 144-145: the non-null values of
column `j` lying outside the IQR bounds, in column order. -/
def colOutlierValues (rows : List (List Cell)) (j : Nat) : List ℚ :=
  (nonNullCol rows j).filter
    (fun v => decide (v < colLoBound rows j) || decide (colHiBound rows j < v))

/-- Embeds the row mask `df[col].isin(outliers)` for row `r`: pandas
`isin` compares by value, and a NaN cell matches nothing. -/
def rowOutlierHit (rows : List (List Cell)) (j : Nat) (r : List Cell) : Bool :=
  match cellNum? (cellGet r j) with
  | some v => decide (v ∈ colOutlierValues rows j)
  | none => false

/-- One iteration of the outlier loop (lines 137-147) for column `j`:
when the column is numeric, has more than 10 non-null values and a
nonempty outlier set, rewrite the flag of every hit row. -/
def outlierPassCol (rows : List (List Cell)) (j : Nat) (flags : List String) : List String :=
  if colIsNumericQ rows j && decide ((nonNullCol rows j).length > 10) then
    if (colOutlierValues rows j).length > 0 then
      (rows.zip flags).map (fun p => if rowOutlierHit rows j p.1 then "potential_outlier" else p.2)
    else flags
  else flags

/-- Number of data columns of the sheet. -/
def numCols (rows : List (List Cell)) : Nat :=
  (rows.map List.length).foldr Nat.max 0

/-- Embeds the whole of step 7: the missing-values pass followed by the
outlier loop over every column. The `data_quality_flag` column itself is
skipped by the loop's dtype test, so iterating over the data columns is
equivalent to iterating over `df.columns`. -/
def qualityFlags (rows : List (List Cell)) : List String :=
  (List.range (numCols rows)).foldl (fun fl j => outlierPassCol rows j fl)
    (rows.map missingPassFlag)

/-! ### Row normalizer pieces of the other scripts -/

/-- Embeds `pd.to_numeric(value, errors='coerce')` on one cell
(`streamwatch_etl.py` line 111): numbers stay, parseable strings become
numbers, everything else becomes NaN. -/
def toNumericCell : Cell → Cell
  | .na => .na
  | .num q => .num q
  | .str s =>
    match parseFloat s with
    | some q => .num q
    | none => .na

/-- Numeric coercion of the row importers (`import_bact_hab_data.py`
lines 118-122): `float(cell)` guarded by `pd.notna`, with
`ValueError`/`TypeError` caught and the value set to `0.0`. -/
def bactNumField (c : Cell) : ℚ :=
  if cellIsNa c then 0 else (pyFloat c).getD 0

/-- Embeds `clean_text_field` of `load_remaining_tables.py` lines 17-21:
null or the empty string become `None`, anything else is
`str(value).strip().upper()`. -/
def cleanTextField (c : Cell) : Option String :=
  if cellIsNa c || c = Cell.str "" then none
  else some (pyUpper (pyStrip (cellToString c)))

/-- Text field of the bacterial/algal extraction:
`str(cell).strip() if pd.notna(cell) else dflt`. -/
def strFieldOr (c : Cell) (dflt : String) : String :=
  if cellIsNa c then dflt else pyStrip (cellToString c)

/-! ### Bacterial branch of `import_bact_hab_data` (lines 93-156) -/

/-- Fields accumulated for one bacterial row; also the shape of the
`bacterial_data` insert. -/
structure BactRecord where
  site_id : String
  sample_date : String
  test_type : String
  result : ℚ
  unit : String
  method : String
  quality_flag : String
  notes : String
deriving DecidableEq

/-- Defaults set at lines 102-109. -/
def bactInit : BactRecord :=
  ⟨"", "", "E. coli", 0, "CFU/100ml", "IDEXX", "clean", ""⟩

/-- One step of the extraction chain of lines 112-128 for column `col`
holding cell `c`. -/
def bactUpdate (st : BactRecord) (col : String) (c : Cell) : BactRecord :=
  if bactIdentKw col then { st with site_id := strFieldOr c "" }
  else if bactDateKw col then
    { st with sample_date := if cellIsNa c then "" else cellToString c }
  else if bactNumKw col then { st with result := bactNumField c }
  else if bactMethodKw col then { st with method := strFieldOr c "IDEXX" }
  else if bactFlagKw col then { st with quality_flag := strFieldOr c "clean" }
  else if bactNoteKw col then { st with notes := strFieldOr c "" }
  else st

/-- Fallback of lines 131-138: the first cell whose stripped text is
nonempty, at most 4 characters and alphanumeric becomes the site code. -/
def siteCodeFallback (cells : List Cell) : Option String :=
  cells.findSome? (fun c =>
    if cellIsNa c then none
    else
      let p := pyStrip (cellToString c)
      if p ≠ "" ∧ p.length ≤ 4 ∧ p.data.all Char.isAlphanum then some p else none)

/-- Emission gate of line 141: `if site_id and result > 0`, emitting the
insert of lines 143-147. -/
def bactEmit (st : BactRecord) : Option BactRecord :=
  if st.site_id ≠ "" ∧ 0 < st.result then some st else none

/-- Embeds one iteration of the bacterial row loop (lines 95-149) up to
the insert decision: `none` when the row is skipped or filtered out,
`some rec` when line 143's `INSERT INTO bacterial_data` runs. -/
def importBactRow (cols : List String) (row : List Cell) : Option BactRecord :=
  match row with
  | [] => none
  | c0 :: _ =>
    if cellIsNa c0 || pyStrip (cellToString c0) = "" then none
    else
      let st := (cols.zip row).foldl (fun st p => bactUpdate st p.1 p.2) bactInit
      let st2 :=
        if st.site_id = "" then
          match siteCodeFallback ((cols.zip row).map Prod.snd) with
          | some p => { st with site_id := p }
          | none => st
        else st
      bactEmit st2

/-- Embeds the bacterial import loop over a sheet with a database oracle
`ok`: a row whose insert raises (`ok r = false`) is caught at lines
151-153 and contributes nothing; the loop continues either way. -/
def importBactSheet (ok : BactRecord → Bool) (cols : List String)
    (rows : List (List Cell)) : List BactRecord :=
  rows.foldl (fun acc row =>
    match importBactRow cols row with
    | none => acc
    | some r => if ok r then acc ++ [r] else acc) []

/-! ### Algal branch of `import_bact_hab_data` (lines 159-222) -/

/-- Fields accumulated for one algal row; also the shape of the
`algal_bloom_data` insert. -/
structure AlgalRecord where
  site_id : String
  sample_date : String
  parameter : String
  value : ℚ
  unit : String
  bloom_status : String
  quality_flag : String
  notes : String
deriving DecidableEq

/-- Defaults set at lines 168-175. -/
def algalInit : AlgalRecord :=
  ⟨"", "", "Phycocyanin", 0, "μg/L", "Unknown", "clean", ""⟩

/-- Header matches the algal value keyword set (`'phyco'`, `'algal'`,
`'bloom'`, `'result'`). -/
def algalValueKw (h : String) : Bool :=
  strContains (pyLower h) "phyco" || strContains (pyLower h) "algal" ||
    strContains (pyLower h) "bloom" || strContains (pyLower h) "result"

/-- Header matches `'status'` or `'condition'`. -/
def algalStatusKw (h : String) : Bool :=
  strContains (pyLower h) "status" || strContains (pyLower h) "condition"

/-- One step of the extraction chain of lines 178-194. -/
def algalUpdate (st : AlgalRecord) (col : String) (c : Cell) : AlgalRecord :=
  if bactIdentKw col then { st with site_id := strFieldOr c "" }
  else if bactDateKw col then
    { st with sample_date := if cellIsNa c then "" else cellToString c }
  else if algalValueKw col then { st with value := bactNumField c }
  else if algalStatusKw col then { st with bloom_status := strFieldOr c "Unknown" }
  else if bactFlagKw col then { st with quality_flag := strFieldOr c "clean" }
  else if bactNoteKw col then { st with notes := strFieldOr c "" }
  else st

/-- Emission gate of line 207: `if site_id and value > 0`, emitting the
insert of lines 209-213. -/
def algalEmit (st : AlgalRecord) : Option AlgalRecord :=
  if st.site_id ≠ "" ∧ 0 < st.value then some st else none

/-- Embeds one iteration of the algal row loop (lines 161-215) up to the
insert decision. -/
def importAlgalRow (cols : List String) (row : List Cell) : Option AlgalRecord :=
  match row with
  | [] => none
  | c0 :: _ =>
    if cellIsNa c0 || pyStrip (cellToString c0) = "" then none
    else
      let st := (cols.zip row).foldl (fun st p => algalUpdate st p.1 p.2) algalInit
      let st2 :=
        if st.site_id = "" then
          match siteCodeFallback ((cols.zip row).map Prod.snd) with
          | some p => { st with site_id := p }
          | none => st
        else st
      algalEmit st2

/-! ### Historical import of `robust_data_import.safe_import_historical_data`
(lines 43-67) -/

/-- Shape of the `historical_water_quality` insert at line 61. -/
structure HistRecord where
  site_id : String
  measurement_date : String
  parameter : String
  value : ℚ
  unit : String
  quality_flag : String
deriving DecidableEq

/-- Embeds `row.get(name, '')`: the cell under the named column, or the
empty string when the sheet has no such column. -/
def rowGet (cols : List String) (row : List Cell) (name : String) : Cell :=
  match cols.findIdx? (· = name) with
  | some i => cellGet row i
  | none => Cell.str ""

/-- Embeds Python `value != ''` on a non-null cell: only a string compares
equal to a string. -/
def pyNeEmptyStr : Cell → Bool
  | .str s => s ≠ ""
  | _ => true

/-- Embeds Python `value != 0` on a non-null cell: only a number compares
equal to `0`, a textual `"0"` does not. -/
def pyNeZero : Cell → Bool
  | .num q => q ≠ 0
  | _ => true

/-- Parameter columns recognized at line 51. -/
def histParams : List String :=
  ["pH", "DO", "Temperature", "Turbidity", "Nitrate", "Phosphate", "Chloride"]

/-- Records one parameter column contributes to a historical row whose
`Site` cell `site` passed the skip test: the cell must be non-null, not
the empty string, not the number zero (lines 52-53), and parseable as a
float (a `float()` raise at line 59 is caught by the broad `except` at
line 66 and the column contributes nothing). -/
def histColRecords (cols : List String) (row : List Cell) (site : Cell) (col : String) :
    List HistRecord :=
  if histParams.contains col then
    let value := rowGet cols row col
    if !cellIsNa value && pyNeEmptyStr value && pyNeZero value then
      match pyFloat value with
      | some v =>
        let dateCell := rowGet cols row "Date"
        [⟨pyStrip (cellToString site),
          if cellIsNa dateCell then "" else cellToString dateCell,
          pyStrip col, v, "units", "clean"⟩]
      | none => []
    else []
  else []

/-- Embeds one iteration of the historical row loop (lines 43-67): skip
the row when the `Site` cell is null or whitespace (lines 45-47), then
walk `df.columns` collecting the per-column records. -/
def histRowRecords (cols : List String) (row : List Cell) : List HistRecord :=
  let site := rowGet cols row "Site"
  if cellIsNa site || pyStrip (cellToString site) = "" then []
  else
    cols.foldl (fun acc col => acc ++ histColRecords cols row site col) []

/-- Records of a whole historical sheet. -/
def histSheetRecords (cols : List String) (rows : List (List Cell)) : List HistRecord :=
  rows.flatMap (histRowRecords cols)

/-! ### Concrete sheets used by counterexamples and witnesses -/

/-- One numeric column holding `[1, 2, 3, 4, 100]` — the example column of
the spec's outlier scenario. -/
def sheetFiveValues : List (List Cell) :=
  [[Cell.num 1], [Cell.num 2], [Cell.num 3], [Cell.num 4], [Cell.num 100]]

/-- One numeric column holding `1..10` and `100`: eleven non-null values,
enough for the outlier pass to run. -/
def sheetEleven : List (List Cell) :=
  [[Cell.num 1], [Cell.num 2], [Cell.num 3], [Cell.num 4], [Cell.num 5], [Cell.num 6],
   [Cell.num 7], [Cell.num 8], [Cell.num 9], [Cell.num 10], [Cell.num 100]]

/-- Twelve rows over four numeric columns. Column 0 holds `1..11` and
`100`; the last row is `[100, NaN, NaN, NaN]`, so it is both high-missing
(3 nulls out of 4 data fields) and holds the outlier `100` of column 0,
which has 12 > 10 non-null values. -/
def sheetTwelve : List (List Cell) :=
  [[Cell.num 1, Cell.num 1, Cell.num 1, Cell.num 1],
   [Cell.num 2, Cell.num 1, Cell.num 1, Cell.num 1],
   [Cell.num 3, Cell.num 1, Cell.num 1, Cell.num 1],
   [Cell.num 4, Cell.num 1, Cell.num 1, Cell.num 1],
   [Cell.num 5, Cell.num 1, Cell.num 1, Cell.num 1],
   [Cell.num 6, Cell.num 1, Cell.num 1, Cell.num 1],
   [Cell.num 7, Cell.num 1, Cell.num 1, Cell.num 1],
   [Cell.num 8, Cell.num 1, Cell.num 1, Cell.num 1],
   [Cell.num 9, Cell.num 1, Cell.num 1, Cell.num 1],
   [Cell.num 10, Cell.num 1, Cell.num 1, Cell.num 1],
   [Cell.num 11, Cell.num 1, Cell.num 1, Cell.num 1],
   [Cell.num 100, Cell.na, Cell.na, Cell.na]]

/-! ## Theorems -/

/-- Sanity check: `ratAdd` is ordinary addition on `ℚ`. -/
theorem ratAdd_eq (a b : ℚ) : ratAdd a b = a + b := (Rat.add_def' a b).symm

/-- Sanity check: `ratSub` is ordinary subtraction on `ℚ`. -/
theorem ratSub_eq (a b : ℚ) : ratSub a b = a - b := (Rat.sub_def' a b).symm

/-- Sanity check: `ratMul` is ordinary multiplication on `ℚ`. -/
theorem ratMul_eq (a b : ℚ) : ratMul a b = a * b := by
  rw [ratMul, Rat.mul_def, Rat.normalize_eq_mkRat]

/-- Sanity check: the threshold constant is one half. -/
theorem mkRat_one_two : (mkRat 1 2 : ℚ) = 1 / 2 := by
  rw [Rat.mkRat_eq_divInt, Rat.divInt_eq_div]
  norm_num

/-! ### C1 — classifier keyword sets and priority order -/

/-- C1, counterexample. The claim says every header containing `"date"` or
`"time"` (case-insensitively) receives the date role. The header `"Time"`
contains `"time"`, yet the row-import classifier leaves it unclassified:
its date test checks only `'date'`. (The sheet cleaner's separate
date-column test does accept it.) -/
theorem c1_counterexample :
    strContains (pyLower "Time") "time" = true ∧
    classifyBactCol "Time" ≠ Role.date ∧
    classifyBactCol "Time" = Role.unknown ∧
    etlDateCol "Time" = true := by decide

/-- C1, amended. In the row-import classifier, the identifier keyword set
is tested first, then `'date'`, then the numeric-result set, and the
free-text set only after the method and flag sets — so first match wins
and a header matching an earlier set never receives a later role; but
only `'date'` (not `'time'`) triggers the date role. -/
theorem c1_classifier_priority (h : String) :
    (classifyBactCol h = Role.identifier ↔ bactIdentKw h = true) ∧
    (classifyBactCol h = Role.date ↔ (bactDateKw h = true ∧ bactIdentKw h = false)) ∧
    (classifyBactCol h = Role.numeric ↔
      (bactNumKw h = true ∧ bactIdentKw h = false ∧ bactDateKw h = false)) ∧
    (classifyBactCol h = Role.note ↔
      (bactNoteKw h = true ∧ bactIdentKw h = false ∧ bactDateKw h = false ∧
       bactNumKw h = false ∧ bactMethodKw h = false ∧ bactFlagKw h = false)) := by
  unfold classifyBactCol
  cases h1 : bactIdentKw h <;> cases h2 : bactDateKw h <;> cases h3 : bactNumKw h <;>
    cases h4 : bactMethodKw h <;> cases h5 : bactFlagKw h <;> cases h6 : bactNoteKw h <;>
      simp

/-! ### C2 — missing-values flag threshold -/

/-- C2, counterexample. A record with 3 null fields out of 5 data fields
has missing fraction 3/5 > 1/2, so the claim flags it `"high_missing"`;
the code computes 3/6 because `len(row)` also counts the
`data_quality_flag` field added at line 127, and leaves the row
`"clean"`. -/
theorem c2_counterexample :
    mkRat 3 5 > mkRat 1 2 ∧
    countNa [Cell.na, Cell.na, Cell.na, Cell.num 1, Cell.str "x"] = 3 ∧
    missingPassFlag [Cell.na, Cell.na, Cell.na, Cell.num 1, Cell.str "x"] = "clean" := by
  decide

/-- C2, amended. The missing-values pass flags a data row of `n` fields
`"high_missing"` exactly when `(nulls)/(n+1) > 1/2` — the denominator
counts the flag field the pass itself just added — and `"clean"`
otherwise; in particular 3 nulls out of 5 data fields gives 3/6 and stays
`"clean"`. -/
theorem c2_missing_flag_threshold (r : List Cell) :
    (missingPassFlag r = "high_missing" ↔ mkRat (countNa r) (r.length + 1) > mkRat 1 2) ∧
    (missingPassFlag r = "clean" ↔ ¬ mkRat (countNa r) (r.length + 1) > mkRat 1 2) := by
  have hc : countNa (r ++ [Cell.str "clean"]) = countNa r := by
    simp [countNa, List.filter_append, cellIsNa]
  have hl : (r ++ [Cell.str "clean"]).length = r.length + 1 := by simp
  simp only [missingPassFlag]
  rw [hc, hl]
  split_ifs with hgt <;> simp_all

/-! ### C8 — uniqueness after header collision suffixing -/

/-- C8, counterexample. Three headers normalizing to the same name are not
disambiguated: the `"_2"` suffix is appended at most once per header, so
`["A", "A", "A"]` yields a duplicated `"A_2"`. -/
theorem c8_counterexample :
    cleanColumnNames ["A", "A", "A"] = ["A", "A_2", "A_2"] ∧
    ¬ (cleanColumnNames ["A", "A", "A"]).Nodup := by decide

/-- C8, amended. When exactly two headers collide the fixed `"_2"` suffix
does keep the output names pairwise distinct: any two-header list maps to
a duplicate-free list. With three or more colliding headers duplicates
remain. -/
theorem c8_two_header_unique (h1 h2 : String) : (cleanColumnNames [h1, h2]).Nodup := by
  have key : ∀ s : String, s ≠ s ++ "_2" := by
    intro s hs
    have hlen := congrArg String.length hs
    rw [String.length_append] at hlen
    have h2 : ("_2" : String).length = 2 := by decide
    omega
  simp only [cleanColumnNames, List.foldl_cons, List.foldl_nil, List.nil_append]
  by_cases hc : cleanName h1 = cleanName h2
  · simp [hc, key]
  · simp [List.contains_cons, Ne.symm hc, hc]

/-! ### C3, C4 — IQR outlier rule and flag precedence -/

/-- Helper: a numeric cell of row `i` contributes its value to the
column's non-null values. -/
theorem mem_nonNullCol (rows : List (List Cell)) (i j : Nat) (v : ℚ)
    (hi : i < rows.length)
    (hcell : cellNum? (cellGet (rows.getD i []) j) = some v) :
    v ∈ nonNullCol rows j := by
  have hrow : rows.getD i [] ∈ rows := by
    rw [List.getD_eq_getElem rows [] hi]
    exact List.getElem_mem hi
  exact List.mem_filterMap.mpr
    ⟨cellGet (rows.getD i []) j, List.mem_map.mpr ⟨rows.getD i [], hrow, rfl⟩, hcell⟩

/-- Helper: the outlier pass keeps the length of the flag column. -/
theorem outlierPassCol_len (rows : List (List Cell)) (j : Nat) (flags : List String)
    (hf : flags.length = rows.length) :
    (outlierPassCol rows j flags).length = rows.length := by
  unfold outlierPassCol
  split_ifs <;> simp [hf]

/-- Helper: when column `j` is numeric with more than 10 non-null values
and row `i` holds one of its outlier values, the outlier pass rewrites
row `i`'s flag to `"potential_outlier"`. -/
theorem outlierPassCol_hit (rows : List (List Cell)) (j : Nat) (flags : List String) (i : Nat)
    (hi : i < rows.length) (hf : flags.length = rows.length)
    (hnum : colIsNumericQ rows j = true) (hlen : 10 < (nonNullCol rows j).length)
    (hhit : rowOutlierHit rows j (rows.getD i []) = true) :
    (outlierPassCol rows j flags).getD i "" = "potential_outlier" := by
  have hne : 0 < (colOutlierValues rows j).length := by
    unfold rowOutlierHit at hhit
    cases hc : cellNum? (cellGet (rows.getD i []) j) with
    | none => rw [hc] at hhit; exact absurd hhit (by simp)
    | some v =>
      rw [hc] at hhit
      exact List.length_pos.mpr (List.ne_nil_of_mem (of_decide_eq_true hhit))
  have hd : decide (10 < (nonNullCol rows j).length) = true := decide_eq_true hlen
  have hrowi : rows.getD i [] = rows[i] := List.getD_eq_getElem rows [] hi
  unfold outlierPassCol
  simp only [hnum, hd, Bool.and_self, if_pos, hne, gt_iff_lt, if_true]
  have hmin : i < ((rows.zip flags).map
      (fun p => if rowOutlierHit rows j p.1 then "potential_outlier" else p.2)).length := by
    simp [hf]; omega
  rw [List.getD_eq_getElem _ _ hmin]
  rw [hrowi] at hhit
  simp [List.getElem_zip, hhit]

/-- Helper: the outlier pass never erases a `"potential_outlier"` flag. -/
theorem outlierPassCol_keep (rows : List (List Cell)) (j : Nat) (flags : List String) (i : Nat)
    (hi : i < rows.length) (hf : flags.length = rows.length)
    (hpo : flags.getD i "" = "potential_outlier") :
    (outlierPassCol rows j flags).getD i "" = "potential_outlier" := by
  unfold outlierPassCol
  split_ifs with h1 h2
  · have hmin : i < ((rows.zip flags).map
        (fun p => if rowOutlierHit rows j p.1 then "potential_outlier" else p.2)).length := by
      simp [hf]; omega
    rw [List.getD_eq_getElem _ _ hmin]
    have hfi : i < flags.length := by omega
    rw [List.getD_eq_getElem flags "" hfi] at hpo
    simp [List.getElem_zip, hpo]
  · exact hpo
  · exact hpo

/-- Helper: once a row's flag is `"potential_outlier"`, the whole column
loop keeps it. -/
theorem foldl_outlierPass_keep (rows : List (List Cell)) (L : List Nat)
    (flags : List String) (i : Nat) (hi : i < rows.length)
    (hf : flags.length = rows.length)
    (hpo : flags.getD i "" = "potential_outlier") :
    (L.foldl (fun fl j => outlierPassCol rows j fl) flags).getD i "" = "potential_outlier" := by
  induction L generalizing flags with
  | nil => exact hpo
  | cons k L ih =>
    simp only [List.foldl_cons]
    exact ih (outlierPassCol rows k flags) (outlierPassCol_len rows k flags hf)
      (outlierPassCol_keep rows k flags i hi hf hpo)

/-- Helper: when some column `j` of the loop flags row `i`, the loop ends
with that row's flag at `"potential_outlier"`. -/
theorem foldl_outlierPass_sets (rows : List (List Cell)) (L : List Nat)
    (flags : List String) (i j : Nat) (hmem : j ∈ L) (hi : i < rows.length)
    (hf : flags.length = rows.length)
    (hnum : colIsNumericQ rows j = true) (hlen : 10 < (nonNullCol rows j).length)
    (hhit : rowOutlierHit rows j (rows.getD i []) = true) :
    (L.foldl (fun fl j => outlierPassCol rows j fl) flags).getD i "" = "potential_outlier" := by
  induction L generalizing flags with
  | nil => cases hmem
  | cons k L ih =>
    simp only [List.foldl_cons]
    rcases List.mem_cons.mp hmem with heq | hmem2
    · subst heq
      exact foldl_outlierPass_keep rows L (outlierPassCol rows j flags) i hi
        (outlierPassCol_len rows j flags hf)
        (outlierPassCol_hit rows j flags i hi hf hnum hlen hhit)
    · exact ih (outlierPassCol rows k flags) hmem2 (outlierPassCol_len rows k flags hf)

/-- C3, counterexample. On the spec's own example column `[1,2,3,4,100]`
the quartiles and bounds are as the claim computes them (`Q1=2`, `Q3=4`,
upper bound `7 < 100`), yet no row is flagged: the outlier pass only runs
for columns with more than 10 non-null values (line 140), and this column
has 5. -/
theorem c3_counterexample :
    colQ1 sheetFiveValues 0 = 2 ∧ colQ3 sheetFiveValues 0 = 4 ∧
    colHiBound sheetFiveValues 0 = 7 ∧ colHiBound sheetFiveValues 0 < 100 ∧
    qualityFlags sheetFiveValues = ["clean", "clean", "clean", "clean", "clean"] := by
  decide

/-- C3, amended. For a numeric column with more than 10 non-null values,
a row's value `v` is hit by the outlier mask exactly when
`v < Q1 - 1.5*IQR` or `v > Q3 + 1.5*IQR`, and a hit row's flag is
rewritten to `"potential_outlier"` by the column's pass; columns with at
most 10 non-null values are never examined. -/
theorem c3_iqr_outlier_rule (rows : List (List Cell)) (flags : List String) (i j : Nat) (v : ℚ)
    (hi : i < rows.length) (hf : flags.length = rows.length)
    (hnum : colIsNumericQ rows j = true) (hlen : 10 < (nonNullCol rows j).length)
    (hcell : cellNum? (cellGet (rows.getD i []) j) = some v) :
    (rowOutlierHit rows j (rows.getD i []) = true ↔
      (v < colLoBound rows j ∨ colHiBound rows j < v)) ∧
    (rowOutlierHit rows j (rows.getD i []) = true →
      (outlierPassCol rows j flags).getD i "" = "potential_outlier") := by
  refine ⟨?_, outlierPassCol_hit rows j flags i hi hf hnum hlen⟩
  have hv := mem_nonNullCol rows i j v hi hcell
  unfold rowOutlierHit
  rw [hcell]
  simp [colOutlierValues, List.mem_filter, hv]

/-- C3, witness: in the column `1..10, 100` (11 non-null values) the row
holding `100` satisfies both parts of the rule. -/
theorem c3_iqr_outlier_rule_witness :
    (rowOutlierHit sheetEleven 0 (sheetEleven.getD 10 []) = true ↔
      ((100 : ℚ) < colLoBound sheetEleven 0 ∨ colHiBound sheetEleven 0 < 100)) ∧
    (rowOutlierHit sheetEleven 0 (sheetEleven.getD 10 []) = true →
      (outlierPassCol sheetEleven 0 (List.replicate 11 "clean")).getD 10 "" =
        "potential_outlier") :=
  c3_iqr_outlier_rule sheetEleven (List.replicate 11 "clean") 10 0 100 (by decide) (by decide)
    (by decide) (by decide) (by decide)

/-- C4, confirmed. A row that is both high-missing and holds an outlier
value of a qualifying numeric column ends with `data_quality_flag`
`"potential_outlier"`: the outlier loop (lines 137-147) runs after the
missing-values pass (lines 131-134) and overwrites its flag. -/
theorem c4_outlier_flag_overrides (rows : List (List Cell)) (i j : Nat)
    (hi : i < rows.length) (hj : j < numCols rows)
    (hnum : colIsNumericQ rows j = true) (hlen : 10 < (nonNullCol rows j).length)
    (hmiss : missingPassFlag (rows.getD i []) = "high_missing")
    (hhit : rowOutlierHit rows j (rows.getD i []) = true) :
    (qualityFlags rows).getD i "" = "potential_outlier" := by
  unfold qualityFlags
  exact foldl_outlierPass_sets rows (List.range (numCols rows)) (rows.map missingPassFlag) i j
    (List.mem_range.mpr hj) hi (by simp) hnum hlen hhit

/-- C4, witness: in `sheetTwelve` the last row is flagged
`"high_missing"` by the missing pass and holds the outlier `100` of
column 0, and the final flag is `"potential_outlier"`. -/
theorem c4_outlier_flag_overrides_witness :
    (qualityFlags sheetTwelve).getD 11 "" = "potential_outlier" :=
  c4_outlier_flag_overrides sheetTwelve 11 0 (by decide) (by decide) (by decide) (by decide)
    (by decide) (by decide)

/-! ### C5, C6, C7, C9, C10 — row normalizer and import loops -/

/-- Helper: a fold that only appends records is the concatenation of its
per-step contributions. -/
theorem foldl_append_eq_flatMap {α β : Type} (g : α → List β) (L : List α) (init : List β) :
    L.foldl (fun acc a => acc ++ g a) init = init ++ L.flatMap g := by
  induction L generalizing init with
  | nil => simp
  | cons a L ih => simp [ih, List.append_assoc]

/-- Helper: every record of a historical row comes from some column. -/
theorem mem_histRowRecords (cols : List String) (row : List Cell) (rec : HistRecord)
    (h : rec ∈ histRowRecords cols row) :
    ∃ col ∈ cols, rec ∈ histColRecords cols row (rowGet cols row "Site") col := by
  simp only [histRowRecords] at h
  split_ifs at h with hskip
  · cases h
  · rw [foldl_append_eq_flatMap] at h
    simp only [List.nil_append] at h
    exact List.mem_flatMap.mp h

/-- Helper: the shape of a record a parameter column emits. -/
theorem histColRecords_spec (cols : List String) (row : List Cell) (site : Cell) (col : String)
    (rec : HistRecord) (h : rec ∈ histColRecords cols row site col) :
    rec.site_id = pyStrip (cellToString site) ∧
    cellIsNa (rowGet cols row col) = false ∧
    pyNeEmptyStr (rowGet cols row col) = true ∧
    pyNeZero (rowGet cols row col) = true ∧
    pyFloat (rowGet cols row col) = some rec.value := by
  simp only [histColRecords] at h
  by_cases h1 : histParams.contains col = true
  · rw [if_pos h1] at h
    by_cases h2 : (!cellIsNa (rowGet cols row col) && pyNeEmptyStr (rowGet cols row col) &&
        pyNeZero (rowGet cols row col)) = true
    · rw [if_pos h2] at h
      cases hv : pyFloat (rowGet cols row col) with
      | none => rw [hv] at h; cases h
      | some v =>
        rw [hv] at h
        rcases List.mem_singleton.mp h with rfl
        simp only [Bool.and_eq_true, Bool.not_eq_true'] at h2
        exact ⟨rfl, h2.1.1, h2.1.2, h2.2, rfl⟩
    · rw [if_neg h2] at h; cases h
  · rw [if_neg h1] at h; cases h

/-- Helper: the bacterial emission gate only emits positive results. -/
theorem bactEmit_result (st br : BactRecord) (h : bactEmit st = some br) : 0 < br.result := by
  unfold bactEmit at h
  split_ifs at h with hc
  cases h
  exact hc.2

/-- Helper: the algal emission gate only emits positive values. -/
theorem algalEmit_value (st ar : AlgalRecord) (h : algalEmit st = some ar) : 0 < ar.value := by
  unfold algalEmit at h
  split_ifs at h with hc
  cases h
  exact hc.2

/-- Helper: a named cell of a row is a cell of the row, or a default. -/
theorem rowGet_mem_or (cols : List String) (row : List Cell) (name : String) :
    rowGet cols row name ∈ row ∨ rowGet cols row name = Cell.na ∨
      rowGet cols row name = Cell.str "" := by
  unfold rowGet
  cases h : cols.findIdx? (· = name) with
  | none => simp
  | some i =>
    simp only [cellGet]
    by_cases hi : i < row.length
    · left
      rw [List.getD_eq_getElem row Cell.na hi]
      exact List.getElem_mem hi
    · right; left
      exact List.getD_eq_default row Cell.na (by omega)

/-- C5, counterexample. The claim says a row whose identifier-role cell is
empty emits no record. In the bacterial importer the `Site` column's cell
is empty here, yet a record is emitted: the fallback of lines 131-138
promotes the short alphanumeric `"AB12"` from another cell to the site
code. -/
theorem c5_counterexample :
    classifyBactCol "Site" = Role.identifier ∧
    rowGet ["Code", "Site", "Result"] [Cell.str "AB12", Cell.str "", Cell.num 5] "Site" =
      Cell.str "" ∧
    importBactRow ["Code", "Site", "Result"] [Cell.str "AB12", Cell.str "", Cell.num 5] =
      some ⟨"AB12", "", "E. coli", 5, "CFU/100ml", "IDEXX", "clean", ""⟩ := by decide

/-- C5, amended. In the historical importer a row whose `Site` cell is
null or whitespace-only emits no record (so the claim's scenario
`{"Site": "", "pH": "7.2"}` produces nothing); in the bacterial importer
the skip test covers only the row's first cell, and an empty
identifier-role cell elsewhere can be papered over by the site-code
fallback. -/
theorem c5_empty_identifier_skip (cols : List String) (row rest : List Cell) (c0 : Cell) :
    ((cellIsNa (rowGet cols row "Site") = true ∨
        pyStrip (cellToString (rowGet cols row "Site")) = "") →
      histRowRecords cols row = []) ∧
    ((cellIsNa c0 = true ∨ pyStrip (cellToString c0) = "") →
      importBactRow cols (c0 :: rest) = none) := by
  constructor
  · intro hempty
    have hb : (cellIsNa (rowGet cols row "Site") ||
        decide (pyStrip (cellToString (rowGet cols row "Site")) = "")) = true := by
      rcases hempty with h | h <;> simp [h]
    simp only [histRowRecords]
    rw [if_pos hb]
  · intro hempty
    have hb : (cellIsNa c0 || decide (pyStrip (cellToString c0) = "")) = true := by
      rcases hempty with h | h <;> simp [h]
    simp only [importBactRow]
    rw [if_pos hb]

/-- C5, witness: the claim's scenario row is skipped by the historical
importer, and a whitespace-only first cell skips a bacterial row. -/
theorem c5_empty_identifier_skip_witness :
    histRowRecords ["Site", "pH"] [Cell.str "", Cell.str "7.2"] = [] ∧
    importBactRow ["Site", "Result"] (Cell.str " " :: [Cell.num 5]) = none :=
  ⟨(c5_empty_identifier_skip ["Site", "pH"] [Cell.str "", Cell.str "7.2"]
      [] Cell.na).1 (by decide),
   (c5_empty_identifier_skip ["Site", "Result"] [] [Cell.num 5]
      (Cell.str " ")).2 (by decide)⟩

/-- C6, counterexample. The claim says numeric coercion turns a parse
failure into null. The sheet cleaner does, but the row importers' numeric
coercion turns it into `0.0` instead. -/
theorem c6_counterexample :
    parseFloat "abc" = none ∧ toNumericCell (Cell.str "abc") = Cell.na ∧
    bactNumField (Cell.str "abc") = 0 := by decide

/-- C6, amended. Numeric coercion never reaches the caller as an
exception (both embeddings are total functions); on parse failure the
sheet cleaner's coercion yields null, while the row importers' coercion
yields the sentinel `0.0`. -/
theorem c6_numeric_coercion (c : Cell) (s : String) :
    (parseFloat s = none → toNumericCell (Cell.str s) = Cell.na) ∧
    (cellIsNa c = false → pyFloat c = none → bactNumField c = 0) := by
  constructor
  · intro hp
    simp [toNumericCell, hp]
  · intro hna hp
    simp [bactNumField, hna, hp]

/-- C6, witness: the unparseable cell `"abc"` becomes null in the sheet
cleaner and `0.0` in the row importers. -/
theorem c6_numeric_coercion_witness :
    toNumericCell (Cell.str "abc") = Cell.na ∧ bactNumField (Cell.str "abc") = 0 :=
  ⟨(c6_numeric_coercion (Cell.str "abc") "abc").1 (by decide),
   (c6_numeric_coercion (Cell.str "abc") "abc").2 (by decide) (by decide)⟩

/-- C7, counterexample. On the claim's scenario row the historical
importer emits `site_id = "ac1"`, not `"AC1"`: line 56 only strips the
site string and never upper-cases it. -/
theorem c7_counterexample :
    histRowRecords ["Site", "pH"] [Cell.str "ac1 ", Cell.str "7.2"] =
      [⟨"ac1", "", "pH", mkRat 36 5, "units", "clean"⟩] ∧
    ("ac1" : String) ≠ "AC1" := by decide

/-- C7, amended. The PostgreSQL loader's `clean_text_field` does trim and
upper-case every non-null, non-empty text field; the historical importer
only trims its site identifier, so the scenario row yields `"ac1"`. -/
theorem c7_text_coercion (c : Cell) (cols : List String) (row : List Cell) (rec : HistRecord) :
    (cellIsNa c = false → c ≠ Cell.str "" →
      cleanTextField c = some (pyUpper (pyStrip (cellToString c)))) ∧
    (rec ∈ histRowRecords cols row →
      rec.site_id = pyStrip (cellToString (rowGet cols row "Site"))) := by
  constructor
  · intro hna hne
    simp [cleanTextField, hna, hne]
  · intro hmem
    obtain ⟨col, _, hcol⟩ := mem_histRowRecords cols row rec hmem
    exact (histColRecords_spec cols row _ col rec hcol).1

/-- C7, witness: `clean_text_field` maps `"ac1 "` to `"AC1"`, while the
historical importer's record for the scenario row carries the merely
stripped `"ac1"`. -/
theorem c7_text_coercion_witness :
    cleanTextField (Cell.str "ac1 ") =
      some (pyUpper (pyStrip (cellToString (Cell.str "ac1 ")))) ∧
    (⟨"ac1", "", "pH", mkRat 36 5, "units", "clean"⟩ : HistRecord).site_id =
      pyStrip (cellToString (rowGet ["Site", "pH"] [Cell.str "ac1 ", Cell.str "7.2"] "Site")) :=
  ⟨(c7_text_coercion (Cell.str "ac1 ") ["Site", "pH"] [Cell.str "ac1 ", Cell.str "7.2"]
      ⟨"ac1", "", "pH", mkRat 36 5, "units", "clean"⟩).1 (by decide) (by decide),
   (c7_text_coercion (Cell.str "ac1 ") ["Site", "pH"] [Cell.str "ac1 ", Cell.str "7.2"]
      ⟨"ac1", "", "pH", mkRat 36 5, "units", "clean"⟩).2 (by decide)⟩

/-- C9, confirmed. A row whose insert fails (oracle answers `false`, the
exception being caught at lines 151-153) contributes nothing, and the
rest of the batch imports exactly as if the failing row were absent: one
bad row never aborts the batch. -/
theorem c9_row_failure_isolated (ok : BactRecord → Bool) (cols : List String)
    (l1 l2 : List (List Cell)) (bad : List Cell) (r : BactRecord)
    (hemit : importBactRow cols bad = some r) (hfail : ok r = false) :
    importBactSheet ok cols (l1 ++ bad :: l2) = importBactSheet ok cols (l1 ++ l2) := by
  unfold importBactSheet
  rw [List.foldl_append, List.foldl_cons, List.foldl_append]
  simp [hemit, hfail]

/-- C9, witness: with an oracle accepting only site `"CD"`, dropping the
failing `"AB"` row leaves the import of the surrounding batch unchanged. -/
theorem c9_row_failure_isolated_witness :
    importBactSheet (fun r => r.site_id == "CD") ["Site", "Result"]
      ([[Cell.str "CD", Cell.num 2]] ++ [Cell.str "AB", Cell.num 5] :: []) =
    importBactSheet (fun r => r.site_id == "CD") ["Site", "Result"]
      ([[Cell.str "CD", Cell.num 2]] ++ []) :=
  c9_row_failure_isolated (fun r => r.site_id == "CD") ["Site", "Result"]
    [[Cell.str "CD", Cell.num 2]] [] [Cell.str "AB", Cell.num 5]
    ⟨"AB", "", "E. coli", 5, "CFU/100ml", "IDEXX", "clean", ""⟩ (by decide) (by decide)

/-- C10, counterexample. The claim says a zero-valued measurement is never
inserted by the historical path. A textual `"0"` cell passes the
`value != 0` test of line 53 (string against number), parses to `0.0` and
is inserted. -/
theorem c10_counterexample :
    pyFloat (Cell.str "0") = some 0 ∧
    histRowRecords ["Site", "pH"] [Cell.str "A", Cell.str "0"] =
      [⟨"A", "", "pH", 0, "units", "clean"⟩] := by decide

/-- C10, amended. The bacterial and algal importers insert a record only
when the parsed value is strictly positive — zero readings, and parse
failures coerced to `0.0`, are silently dropped. The historical importer
skips numeric-zero and unparseable cells, so over rows without text cells
every inserted value is nonzero; but a textual `"0"` evades its zero
test. -/
theorem c10_positive_value_gate (cols : List String) (row : List Cell)
    (br : BactRecord) (ar : AlgalRecord) (rec : HistRecord) :
    (importBactRow cols row = some br → 0 < br.result) ∧
    (importAlgalRow cols row = some ar → 0 < ar.value) ∧
    ((∀ c ∈ row, cellIsStr c = false) → rec ∈ histRowRecords cols row → rec.value ≠ 0) := by
  refine ⟨?_, ?_, ?_⟩
  · intro h
    cases row with
    | nil => simp [importBactRow] at h
    | cons c0 rest =>
      simp only [importBactRow] at h
      split at h
      · exact Option.noConfusion h
      · exact bactEmit_result _ br h
  · intro h
    cases row with
    | nil => simp [importAlgalRow] at h
    | cons c0 rest =>
      simp only [importAlgalRow] at h
      split at h
      · exact Option.noConfusion h
      · exact algalEmit_value _ ar h
  · intro hstr hmem
    obtain ⟨col, _, hcol⟩ := mem_histRowRecords cols row rec hmem
    obtain ⟨_, hna, hne, hnz, hv⟩ := histColRecords_spec cols row _ col rec hcol
    cases hcell : rowGet cols row col with
    | na => rw [hcell] at hna; simp [cellIsNa] at hna
    | str s =>
      rcases rowGet_mem_or cols row col with hmem2 | hna2 | hempty
      · have := hstr _ hmem2
        rw [hcell] at this
        simp [cellIsStr] at this
      · rw [hcell] at hna2; cases hna2
      · rw [hcell] at hempty
        injection hempty with hs
        subst hs
        rw [hcell] at hne
        simp [pyNeEmptyStr] at hne
    | num q =>
      rw [hcell] at hv hnz
      simp only [pyFloat, Option.some.injEq] at hv
      simp only [pyNeZero, decide_eq_true_eq] at hnz
      rw [← hv]
      exact hnz

/-- C10, witness: a positive bacterial result and a positive algal value
are inserted, and a historical row of numeric cells yields a nonzero
value. -/
theorem c10_positive_value_gate_witness :
    (0 : ℚ) < (⟨"AB", "", "E. coli", 5, "CFU/100ml", "IDEXX", "clean", ""⟩ : BactRecord).result ∧
    (0 : ℚ) < (⟨"AB", "", "Phycocyanin", 3, "μg/L", "Unknown", "clean", ""⟩ : AlgalRecord).value ∧
    (⟨"7", "", "pH", 3, "units", "clean"⟩ : HistRecord).value ≠ 0 :=
  ⟨(c10_positive_value_gate ["Site", "Result"] [Cell.str "AB", Cell.num 5]
      ⟨"AB", "", "E. coli", 5, "CFU/100ml", "IDEXX", "clean", ""⟩ algalInit
      ⟨"", "", "", 0, "", ""⟩).1 (by decide),
   (c10_positive_value_gate ["Site", "Result"] [Cell.str "AB", Cell.num 3] bactInit
      ⟨"AB", "", "Phycocyanin", 3, "μg/L", "Unknown", "clean", ""⟩
      ⟨"", "", "", 0, "", ""⟩).2.1 (by decide),
   (c10_positive_value_gate ["Site", "pH"] [Cell.num 7, Cell.num 3] bactInit algalInit
      ⟨"7", "", "pH", 3, "units", "clean"⟩).2.2 (by decide) (by decide)⟩
